import Mathlib

/-!
# Verification of the hlf-sdk-go transaction pipeline

Shallow embedding of the parts of `vitiko/hlf-sdk-go` that the spec's
claims are about:

* `client/grpc/grpc.go` — connection factory (`OptionsFromConfig`,
  `ConnectionFromConfigs`, the package-level `DefaultGRPCRetryConfig`);
* `client/chaincode` invoke builder (`invokeBuilder.Do`,
  `makeTruncatableString`, `errArgMap`);
* `proto/subs` transaction subscription (`TxSubscription.Handler`,
  `TxSubscription.Result`);
* `api/config` MSP loader (`MSP.MSP`, `MSP.Signer`).

Modelling conventions: Go durations are represented by their rendered
string (the code only compares renderings with the empty string and
copies values); file reads, host parsing and the actual gRPC dial are
abstracted to the data that decides them (paths, hosts); fallible
external collaborators (proposal signing, endorsement fan-out, orderer
broadcast, tx-waiter) appear as `Except`/`Option`-valued oracle inputs
of `Do`, so every branch of the Go source is represented.
-/

namespace HlfSdk

/-! ## Configuration data model (`api/config`) -/

/-- Source `config.TlsConfig`: per-endpoint TLS settings. -/
structure TlsConfig where
  Enabled : Bool
  SkipVerify : Bool
  CACertPath : String
  CertPath : String
  KeyPath : String
  deriving DecidableEq, Repr

/-- Source `config.GRPCRetryConfig`; `Timeout` is the duration's rendering. -/
structure GRPCRetryConfig where
  Max : Nat
  Timeout : String
  deriving DecidableEq, Repr

/-- Source `config.GRPCKeepAliveConfig` (seconds). -/
structure GRPCKeepAliveConfig where
  Time : Nat
  Timeout : Nat
  deriving DecidableEq, Repr

/-- Source `config.GRPCConfig`. -/
structure GRPCConfig where
  KeepAlive : Option GRPCKeepAliveConfig
  Retry : Option GRPCRetryConfig
  deriving DecidableEq, Repr

/-- Source `config.ConnectionConfig`; `Timeout` is the duration's rendering
(the source only tests `c.Timeout.String() != ""` and copies the value). -/
structure ConnectionConfig where
  Host : String
  Tls : TlsConfig
  GRPC : GRPCConfig
  Timeout : String
  deriving DecidableEq, Repr

/-! ## Connection factory (`client/grpc/grpc.go`) -/

/-- Package-level `DefaultGRPCRetryConfig` initial value:
`Max: 10, Timeout: 10 * time.Second`. -/
def DefaultGRPCRetryConfig : GRPCRetryConfig :=
  { Max := 10, Timeout := "10s" }

/-- The transport-security dial option produced by `OptionsFromConfig`:
plaintext when TLS is disabled, otherwise TLS credentials determined by
the config's skip-verify flag, CA bundle path and client cert/key paths
(file contents are abstracted to the paths that select them). -/
inductive SecurityOpt
  | insecure
  | tls (skipVerify : Bool) (caCertPath certPath keyPath : String)
  deriving DecidableEq, Repr

/-- The TLS branch of `OptionsFromConfig` (grpc.go lines 67-110). -/
def securityFromConfig (c : ConnectionConfig) : SecurityOpt :=
  if c.Tls.Enabled then
    .tls c.Tls.SkipVerify c.Tls.CACertPath c.Tls.CertPath c.Tls.KeyPath
  else
    .insecure

/-- The retry-config selection of `OptionsFromConfig` (grpc.go lines
122-130), with the package-level default threaded as explicit state.
In Go, `retryConfig = DefaultGRPCRetryConfig` copies the *pointer*, so
the assignment `retryConfig.Timeout = c.Timeout` in the
`c.GRPC.Retry == nil && c.Timeout.String() != ""` branch writes through
to the package-level variable.  Returns
`(retry config used for the dial options, DefaultGRPCRetryConfig after the call)`. -/
def OptionsFromConfigRetry (c : ConnectionConfig) (dflt : GRPCRetryConfig) :
    GRPCRetryConfig × GRPCRetryConfig :=
  match c.GRPC.Retry with
  | some rc => (rc, dflt)
  | none =>
    if c.Timeout ≠ "" then
      ({ dflt with Timeout := c.Timeout }, { dflt with Timeout := c.Timeout })
    else
      (dflt, dflt)

/-- The dial plan produced by `ConnectionFromConfigs` (grpc.go lines
167-206): the security option actually passed to `grpc.DialContext`
and the resolver address list. -/
structure DialPlan where
  security : SecurityOpt
  addresses : List String
  deriving DecidableEq, Repr

/-- Source `ConnectionFromConfigs`: fails on an empty config list; otherwise
the dial options come from `conf[0]` only (source comment: "use options
from first config") while every config contributes its address to the
round-robin resolver state. -/
def ConnectionFromConfigs (conf : List ConnectionConfig) : Except String DialPlan :=
  match conf with
  | [] => .error "no GRPC options provided"
  | c0 :: _ => .ok { security := securityFromConfig c0
                     addresses := conf.map (·.Host) }

/-- The security option the connection uses when RPCs are balanced to
endpoint `i`: one shared client connection means one shared option set. -/
def DialPlan.securityFor (p : DialPlan) (_i : Nat) : SecurityOpt :=
  p.security

/-! ## Argument rendering (`client/chaincode` invoke builder) -/

/-- Source `TruncatableString` (proto_query.go part 2). -/
structure TruncatableString where
  Value : String
  TruncatedByteCount : Nat
  deriving DecidableEq, Repr

/-- Source `TruncatableString.String()`: the value, plus `(<dropped>)` when
truncation happened. -/
def TruncatableString.str (t : TruncatableString) : String :=
  if t.TruncatedByteCount = 0 then t.Value
  else t.Value ++ "(" ++ toString t.TruncatedByteCount ++ ")"

/-- Source `makeTruncatableString(str, size)`: short strings unchanged; longer
strings keep the first `size` bytes, append `"..."`, and record the
number of dropped bytes (`len(str[size:])`). -/
def makeTruncatableString (str : String) (size : Nat) : TruncatableString :=
  if str.length ≤ size then
    { Value := str, TruncatedByteCount := 0 }
  else
    { Value := str.take size ++ "...", TruncatedByteCount := str.length - size }

namespace errArgMap

/-- Source `errArgMap.Err()` over the accumulated `(rendered argument, error)`
entries (each entry was added by `Add` as
`container[makeTruncatableString(fmt.Sprintf("%#v", arg), 50)] = err`):
`nil` when empty, otherwise each entry contributes
`errors.Wrap(err, key.String()).Error() + "\n"`,
i.e. `key.String() + ": " + err + "\n"`. -/
def Err (entries : List (String × String)) : Option String :=
  match entries with
  | [] => none
  | _ =>
    some (String.join (entries.map fun p =>
      (makeTruncatableString p.1 50).str ++ ": " ++ p.2 ++ "\n"))

end errArgMap

/-! ## Invoke builder `Do` (`client/chaincode` proto_query.go part 2) -/

/-- Source `peer.ProposalResponse`, reduced to the field `Do` returns
(`peerResponses[0].Response`); the payload is opaque. -/
structure ProposalResponse where
  Response : String
  deriving DecidableEq, Repr

/-- The error `Do` returns, one constructor per `return` site of the
source, mirroring its `fmt.Errorf` wrappers. -/
inductive DoErr
  | badArgs (aggregate : String)
  | ordererNotDefined
  | applyOptions (e : String)
  | createProposal (e : String)
  | sendProposal (e : String)
  | notEnoughEndorsements (received required : Nat)
  | createEnvelope (e : String)
  | broadcast (e : String)
  | wait (e : String)
  deriving DecidableEq, Repr

/-- Oracle outcomes of `Do`'s effectful collaborators, in source order.
`endorsingMspIDs` is `doOpts.EndorsingMspIDs` after options are applied;
`proposal` carries the `txID` of `tx.Endorsement{...}.SignedProposal()`;
`wait` is the error of `doOpts.TxWaiter.Wait` (`none` on success). -/
structure DoEnv where
  ordererDefined : Bool
  txWaiterInitOk : Bool
  applyOptions : Except String Unit
  endorsingMspIDs : List String
  proposal : Except String String
  endorse : Except String (List ProposalResponse)
  envelope : Except String Unit
  broadcast : Except String Unit
  wait : Option String

/-- What `Do` handed back and whether `orderer.Broadcast` was reached.
`response` is `peerResponses[0].Response` (the embedded `peer.Response`,
opaque here). -/
structure DoResult where
  response : Option String
  txID : String
  err : Option DoErr
  broadcastCalled : Bool
  deriving DecidableEq, Repr

namespace invokeBuilder

/-- Source `invokeBuilder.Do` (proto_query.go part 2, lines 174-239), branch
for branch: drained argument errors; `ErrOrdererNotDefined`; the
`txwaiter.Self` failure path that returns `(nil, "", nil)`; option
application; proposal creation; `EndorseOnMSPs`; the
`len(peerResponses) == 0 || len(peerResponses) != len(EndorsingMspIDs)`
guard wrapping `ErrNotEnoughEndorsements`; envelope creation; orderer
broadcast; the tx-waiter wait; and the success return
`(peerResponses[0].Response, txID, nil)`. -/
def Do (argErrs : List (String × String)) (env : DoEnv) : DoResult :=
  match errArgMap.Err argErrs with
  | some e => ⟨none, "", some (.badArgs e), false⟩
  | none =>
    if !env.ordererDefined then ⟨none, "", some .ordererNotDefined, false⟩
    else if !env.txWaiterInitOk then ⟨none, "", none, false⟩
    else match env.applyOptions with
    | .error e => ⟨none, "", some (.applyOptions e), false⟩
    | .ok _ =>
      match env.proposal with
      | .error e => ⟨none, "", some (.createProposal e), false⟩
      | .ok txID =>
        match env.endorse with
        | .error e => ⟨none, txID, some (.sendProposal e), false⟩
        | .ok rs =>
          if rs.length = 0 || rs.length ≠ env.endorsingMspIDs.length then
            ⟨none, "", some (.notEnoughEndorsements rs.length env.endorsingMspIDs.length), false⟩
          else match env.envelope with
          | .error e => ⟨none, txID, some (.createEnvelope e), false⟩
          | .ok _ =>
            match env.broadcast with
            | .error e => ⟨none, txID, some (.broadcast e), true⟩
            | .ok _ =>
              match env.wait with
              | some e => ⟨none, txID, some (.wait e), true⟩
              | none => ⟨rs.head?.map ProposalResponse.Response, txID, none, true⟩

end invokeBuilder

/-- Modelled from the spec: `PeerPool.EndorseOnMSPs` is not under
`src/` (only its caller is).  Spec 4.4: "fan-out in parallel; returns
as many endorsements as MSPs were requested, in the same order as the
input. If any MSP fails to produce an endorsement, the aggregate
fails".  `endorse` maps an MSP id to that MSP's endorsement outcome. -/
def EndorseOnMSPs (endorse : String → Except String ProposalResponse) :
    List String → Except String (List ProposalResponse)
  | [] => .ok []
  | m :: ms =>
    match endorse m, EndorseOnMSPs endorse ms with
    | .error e, _ => .error e
    | .ok _, .error e => .error e
    | .ok r, .ok rs => .ok (r :: rs)

/-! ## Transaction subscription (`proto/subs`, src/unnamed/part_002) -/

/-- One entry of `block.GetData().GetData()` as the handler sees it
after the three parse steps (`GetEnvelopeFromBlock`,
`UnmarshalPayload`, `UnmarshalChannelHeader`): either some stage fails
with an error, or the entry yields a channel header carrying `TxId`. -/
inductive BlockEntry
  | parseFail (err : String)
  | tx (txId : String)
  deriving DecidableEq, Repr

/-- A delivered block: parsed data entries plus the
`TRANSACTIONS_FILTER` metadata (one validation flag per entry). -/
structure Block where
  entries : List BlockEntry
  txFilter : List Int
  deriving DecidableEq, Repr

/-- The `result` struct sent on the subscription channel:
`{code peer.TxValidationCode; err error}`. -/
structure TxResult where
  code : Int
  err : Option String
  deriving DecidableEq, Repr

/-- What `Handler` did to the result channel: closed it, sent one
result, or left it alone. -/
inductive ChanAction
  | closed
  | sent (r : TxResult)
  | nop
  deriving DecidableEq, Repr

/-- Source `peer.TxValidationCode_name`: the Fabric proto enum name map. -/
def txValidationName (c : Int) : String :=
  if c = 0 then "VALID"
  else if c = 1 then "NIL_ENVELOPE"
  else if c = 2 then "BAD_PAYLOAD"
  else if c = 3 then "BAD_COMMON_HEADER"
  else if c = 4 then "BAD_CREATOR_SIGNATURE"
  else if c = 5 then "INVALID_ENDORSER_TRANSACTION"
  else if c = 6 then "INVALID_CONFIG_TRANSACTION"
  else if c = 7 then "UNSUPPORTED_TX_PAYLOAD"
  else if c = 8 then "BAD_PROPOSAL_TXID"
  else if c = 9 then "DUPLICATE_TXID"
  else if c = 10 then "ENDORSEMENT_POLICY_FAILURE"
  else if c = 11 then "MVCC_READ_CONFLICT"
  else if c = 12 then "PHANTOM_READ_CONFLICT"
  else if c = 13 then "UNKNOWN_TX_TYPE"
  else if c = 14 then "TARGET_CHAIN_NOT_FOUND"
  else if c = 15 then "MARSHAL_TX_ERROR"
  else if c = 16 then "NIL_TXACTION"
  else if c = 17 then "EXPIRED_CHAINCODE"
  else if c = 18 then "CHAINCODE_VERSION_CONFLICT"
  else if c = 19 then "BAD_HEADER_EXTENSION"
  else if c = 20 then "BAD_CHANNEL_HEADER"
  else if c = 21 then "BAD_RESPONSE_PAYLOAD"
  else if c = 22 then "BAD_RWSET"
  else if c = 23 then "ILLEGAL_WRITESET"
  else if c = 24 then "INVALID_WRITESET"
  else if c = 25 then "INVALID_CHAINCODE"
  else if c = 254 then "NOT_VALIDATED"
  else if c = 255 then "INVALID_OTHER_REASON"
  else ""

namespace TxSubscription

/-- The `for i, r := range block.GetData().GetData()` loop of
`Handler`: a parse failure sends `{code: 0, err}` and returns `true`;
an entry whose `TxId` matches sends the filter flag at its index
(`txFilter.IsValid(i)` is `Flag(i) == VALID`, and VALID = 0), with a
nil error when valid and otherwise the
`"TxId validation code failed: <name>"` error; any other entry is
skipped; falling off the end returns `false`. -/
def handlerLoop (txId : String) (txFilter : List Int) :
    List BlockEntry → Nat → ChanAction × Bool
  | [], _ => (.nop, false)
  | e :: rest, i =>
    match e with
    | .parseFail err => (.sent ⟨0, some err⟩, true)
    | .tx id =>
      if id = txId then
        let flag := txFilter.getD i 0
        if flag = 0 then (.sent ⟨flag, none⟩, true)
        else (.sent ⟨flag, some ("TxId validation code failed: " ++ txValidationName flag)⟩, true)
      else handlerLoop txId txFilter rest (i + 1)

/-- Source `TxSubscription.Handler`: a nil block closes the result channel and
returns `false`; otherwise the loop above runs over the block. -/
def Handler (txId : String) (block : Option Block) : ChanAction × Bool :=
  match block with
  | none => (.closed, false)
  | some b => handlerLoop txId b.txFilter b.entries 0

/-- State of a Go channel of capacity 1: at most one buffered value,
plus whether it has been closed.  A receive is ready when a value is
buffered or the channel is closed (a closed empty channel yields
`ok = false`). -/
structure Chan (α : Type) where
  buf : Option α
  closed : Bool

/-- Whether a receive on the channel would complete without blocking. -/
def Chan.ready (c : Chan α) : Bool :=
  c.buf.isSome || c.closed

/-- Source `TxSubscription.Result` (part_002 lines 36-58).  `res` is the
`ts.result` channel, `errC` the `ts.Err()` channel; `preferErr` resolves
the `select` when both branches are ready (Go picks one at random).
`none` means the call blocks.  The result-channel branch returns the
received `(code, err)` or `(-1, "code is closed")`; the error branch
returns `(-1, err)` or, when the error channel is closed, re-tries the
result channel in an inner `select` with a
`(-1, "err is closed")` default. -/
def Result (res : Chan TxResult) (errC : Chan String) (preferErr : Bool) :
    Option (Int × Option String) :=
  let resBranch : Option (Int × Option String) :=
    match res.buf with
    | some r => some (r.code, r.err)
    | none => some (-1, some "code is closed")
  let errBranch : Option (Int × Option String) :=
    match errC.buf with
    | some e => some (-1, some e)
    | none =>
      if res.ready then
        match res.buf with
        | some r => some (r.code, r.err)
        | none => some (-1, some "code is closed")
      else
        some (-1, some "err is closed")
  if preferErr && errC.ready then errBranch
  else if res.ready then resBranch
  else if errC.ready then errBranch
  else none

end TxSubscription

/-! ## MSP loader (`api/config`, src/unnamed/part_000) -/

/-- The `identity.MSP` value returned by `identity.MSPFromPath`,
reduced to what `config.MSP.Signer` reads from it: `Signer()` returns
either a signing identity (opaque) or nil. -/
structure MSPConfigModel where
  signer : Option String
  deriving DecidableEq, Repr

/-- The errors of the MSP loader chain.  `fromPath` wraps an error
returned by `identity.MSPFromPath` itself. -/
inductive MSPErr
  | idEmpty
  | pathEmpty
  | fromPath (e : String)
  | signerNotFound
  deriving DecidableEq, Repr

/-- Source `config.MSP`: the YAML `{id, path}` pair. -/
structure MSPConf where
  ID : String
  Path : String
  deriving DecidableEq, Repr

/-- Source `MSP.MSP()` (part_000 lines 38-48): empty ID fails first with
`ErrMSPIDEmpty`, then empty path with `ErrMSPPathEmpty`, otherwise the
result of `identity.MSPFromPath(ID, Path)`.  `MSPFromPath` is not under
`src/`; it is the abstract loader `mspFromPath`. -/
def MSPConf.MSP (m : MSPConf)
    (mspFromPath : String → String → Except String MSPConfigModel) :
    Except MSPErr MSPConfigModel :=
  if m.ID = "" then .error .idEmpty
  else if m.Path = "" then .error .pathEmpty
  else
    match mspFromPath m.ID m.Path with
    | .error e => .error (.fromPath e)
    | .ok cfg => .ok cfg

/-- Source `MSP.Signer()` (part_000 lines 24-36): propagate `MSP()` errors;
then `ErrSignerNotFound` exactly when the loaded config's signer is
nil. -/
def MSPConf.Signer (m : MSPConf)
    (mspFromPath : String → String → Except String MSPConfigModel) :
    Except MSPErr String :=
  match m.MSP mspFromPath with
  | .error e => .error e
  | .ok cfg =>
    match cfg.signer with
    | none => .error .signerNotFound
    | some s => .ok s

/-! ## Concrete inputs used by witnesses and counterexamples -/

/-- A `DoEnv` for the S1 happy path: orderer defined, waiter installed,
two endorsing MSPs, two matching endorsements, broadcast accepted,
waiter resolves without error. -/
def sampleEnv : DoEnv where
  ordererDefined := true
  txWaiterInitOk := true
  applyOptions := .ok ()
  endorsingMspIDs := ["Org1MSP", "Org2MSP"]
  proposal := .ok "abc123"
  endorse := .ok [⟨"0x01"⟩, ⟨"0x01"⟩]
  envelope := .ok ()
  broadcast := .ok ()
  wait := none

/-- S2: `Org2MSP`'s endorsement is missing — one response collected
where two MSPs were requested. -/
def envOneShort : DoEnv :=
  { sampleEnv with endorse := .ok [⟨"0x01"⟩] }

/-- The tx-waiter initialisation failure path. -/
def envWaiterInitFails : DoEnv :=
  { sampleEnv with txWaiterInitOk := false }

/-- A per-MSP endorsement oracle where both organisations answer with
the same payload. -/
def sampleEndorse : String → Except String ProposalResponse :=
  fun m =>
    if m = "Org1MSP" then .ok ⟨"0x01"⟩
    else if m = "Org2MSP" then .ok ⟨"0x01"⟩
    else .error "unknown MSP"

/-- The happy-path env with the endorsement list produced by the
ordered fan-out model. -/
def envOrdered : DoEnv :=
  { sampleEnv with endorse := EndorseOnMSPs sampleEndorse ["Org1MSP", "Org2MSP"] }

/-- A plaintext endpoint configuration. -/
def plainConfig : ConnectionConfig where
  Host := "peer0.org1:7051"
  Tls := { Enabled := false, SkipVerify := false, CACertPath := "", CertPath := "", KeyPath := "" }
  GRPC := { KeepAlive := none, Retry := none }
  Timeout := ""

/-- A TLS-enabled endpoint configuration with its own CA bundle. -/
def tlsConfig : ConnectionConfig where
  Host := "peer0.org2:7051"
  Tls := { Enabled := true, SkipVerify := false, CACertPath := "org2-ca.pem", CertPath := "", KeyPath := "" }
  GRPC := { KeepAlive := none, Retry := none }
  Timeout := ""

/-- A configuration with no retry block and a non-empty timeout — the
input on which `OptionsFromConfig` writes through to the package-level
default. -/
def retryBugConfig : ConnectionConfig where
  Host := "peer0.org1:7051"
  Tls := { Enabled := false, SkipVerify := false, CACertPath := "", CertPath := "", KeyPath := "" }
  GRPC := { KeepAlive := none, Retry := none }
  Timeout := "5s"

/-- A 51-character argument rendering (one byte over the 50-byte cap). -/
def longArg : String :=
  "aaaaaaaaaaaaaaaaaaaaaaaaaaaaaaaaaaaaaaaaaaaaaaaaaaX"

end HlfSdk

namespace HlfSdk

/-! ## Helper lemmas -/

/-- Closed form of the rendering used by the argument error map. -/
theorem makeTruncatableString_str (s : String) :
    (makeTruncatableString s 50).str =
      if s.length ≤ 50 then s
      else s.take 50 ++ "..." ++ "(" ++ toString (s.length - 50) ++ ")" := by
  unfold makeTruncatableString TruncatableString.str
  split
  · simp
  · rename_i h
    have hne : s.length - 50 ≠ 0 := by omega
    simp [hne]

/-- Source `MSP.MSP` can fail only with `idEmpty`, `pathEmpty` or a
wrapped loader error, never with `signerNotFound`. -/
theorem MSPConf_MSP_ne_signerNotFound (m : MSPConf)
    (f : String → String → Except String MSPConfigModel) :
    m.MSP f ≠ .error .signerNotFound := by
  unfold MSPConf.MSP
  split
  · simp
  · split
    · simp
    · split <;> simp

/-- The handler loop skips any prefix of parsed, non-matching
transactions, advancing the filter index by the prefix length. -/
theorem handlerLoop_append_skip (txId : String) (flags : List Int)
    (pre rest : List BlockEntry) (i : Nat)
    (hpre : ∀ x ∈ pre, ∃ id, x = BlockEntry.tx id ∧ id ≠ txId) :
    TxSubscription.handlerLoop txId flags (pre ++ rest) i =
      TxSubscription.handlerLoop txId flags rest (i + pre.length) := by
  induction pre generalizing i with
  | nil => simp
  | cons a pr ih =>
    obtain ⟨id, rfl, hne⟩ := hpre a (List.mem_cons_self a pr)
    have hstep : TxSubscription.handlerLoop txId flags
        ((BlockEntry.tx id :: pr) ++ rest) i =
        TxSubscription.handlerLoop txId flags (pr ++ rest) (i + 1) := by
      simp [TxSubscription.handlerLoop, hne]
    rw [hstep, ih (i + 1) (fun x hx => hpre x (List.mem_cons_of_mem _ hx))]
    congr 1
    simp only [List.length_cons]
    omega

/-! ## Claim theorems -/

/-- C3: in the invoke builder's `Do`, if the default tx-waiter
initialisation (`txwaiter.Self`) fails, `Do` returns the triple
`(nil, "", nil)` — nil response, empty txID and nil error — rather
than propagating the initialisation error (and nothing downstream,
including the orderer broadcast, runs). -/
theorem C3_do_swallows_txwaiter_init_error (env : DoEnv)
    (hord : env.ordererDefined = true)
    (hinit : env.txWaiterInitOk = false) :
    invokeBuilder.Do [] env =
      { response := none, txID := "", err := none, broadcastCalled := false } := by
  unfold invokeBuilder.Do
  rw [hord, hinit]
  rfl

/-- Witness for C3 at a concrete environment. -/
theorem C3_do_swallows_txwaiter_init_error_witness :
    invokeBuilder.Do [] envWaiterInitFails =
      { response := none, txID := "", err := none, broadcastCalled := false } :=
  C3_do_swallows_txwaiter_init_error envWaiterInitFails rfl rfl

/-- C5: when the block stream closes, `Handler` receives a nil block,
closes the result channel and reports the block unhandled; a
subsequent `Result` on the closed-and-empty result channel resolves —
whatever the state of the error channel and however the `select` is
scheduled — with validation code `-1` and a non-nil error instead of
blocking. -/
theorem C5_stream_closed_resolves (txId : String)
    (errC : TxSubscription.Chan String) (preferErr : Bool) :
    TxSubscription.Handler txId none = (.closed, false) ∧
    ∃ e : String, TxSubscription.Result ⟨none, true⟩ errC preferErr =
      some (-1, some e) := by
  refine ⟨rfl, ?_⟩
  unfold TxSubscription.Result
  obtain ⟨eb, ec⟩ := errC
  cases eb <;> cases ec <;> cases preferErr <;>
    simp [TxSubscription.Chan.ready]

/-- C7 (code bug): at a configuration with no retry block and a
non-empty timeout, the retry-config selection of `OptionsFromConfig`
writes through the aliased pointer: after the call the package-level
`DefaultGRPCRetryConfig` carries the caller's timeout instead of its
original value. -/
theorem C7_default_retry_config_mutated :
    (OptionsFromConfigRetry retryBugConfig DefaultGRPCRetryConfig).2 =
      { Max := 10, Timeout := "5s" } ∧
    ({ Max := 10, Timeout := "5s" } : GRPCRetryConfig) ≠ DefaultGRPCRetryConfig := by
  decide

/-- C9: the MSP loader's failure mapping — empty ID fails with
`MSPIDEmpty` even when the path is also empty; a non-empty ID with an
empty path fails with `MSPPathEmpty`; and `Signer` fails with
`SignerNotFound` exactly when the successfully loaded MSP config
yields no signer. -/
theorem C9_msp_loader_failure_mapping (m : MSPConf)
    (f : String → String → Except String MSPConfigModel) :
    (m.ID = "" → m.MSP f = .error .idEmpty ∧ m.Signer f = .error .idEmpty) ∧
    (m.ID ≠ "" → m.Path = "" → m.MSP f = .error .pathEmpty ∧ m.Signer f = .error .pathEmpty) ∧
    (m.Signer f = .error .signerNotFound ↔
      ∃ cfg, m.MSP f = .ok cfg ∧ cfg.signer = none) := by
  refine ⟨?_, ?_, ?_, ?_⟩
  · intro h
    exact ⟨by simp [MSPConf.MSP, h], by simp [MSPConf.Signer, MSPConf.MSP, h]⟩
  · intro h1 h2
    exact ⟨by simp [MSPConf.MSP, h1, h2], by simp [MSPConf.Signer, MSPConf.MSP, h1, h2]⟩
  · intro h
    unfold MSPConf.Signer at h
    split at h
    · rename_i e heq
      injection h with h2
      subst h2
      exact absurd heq (MSPConf_MSP_ne_signerNotFound m f)
    · rename_i cfg heq
      split at h
      · rename_i hs
        exact ⟨cfg, heq, hs⟩
      · rename_i s hs
        exact Except.noConfusion h
  · rintro ⟨cfg, hm, hs⟩
    unfold MSPConf.Signer
    split
    · rename_i e heq
      rw [hm] at heq
      exact Except.noConfusion heq
    · rename_i cfg2 heq
      rw [hm] at heq
      injection heq with h2
      subst h2
      split
      · rfl
      · rename_i s hs2
        rw [hs] at hs2
        exact Option.noConfusion hs2

/-- Witness for C9 at a concrete MSP value whose ID and path are both
empty: the ID check fires first. -/
theorem C9_msp_loader_failure_mapping_witness :
    MSPConf.MSP ⟨"", ""⟩ (fun _ _ => .ok ⟨none⟩) = .error .idEmpty ∧
    MSPConf.Signer ⟨"", ""⟩ (fun _ _ => .ok ⟨none⟩) = .error .idEmpty :=
  (C9_msp_loader_failure_mapping ⟨"", ""⟩ (fun _ _ => .ok ⟨none⟩)).1 rfl

/-- C10: if a block entry fails to parse before the awaited txID has
been seen, `Handler` immediately sends validation code `0` together
with the parse error and reports the block handled, even when the
awaited transaction occurs later in the block. -/
theorem C10_parse_error_preempts (txId err : String) (flags : List Int)
    (pre rest : List BlockEntry)
    (hpre : ∀ x ∈ pre, ∃ id, x = BlockEntry.tx id ∧ id ≠ txId) :
    TxSubscription.Handler txId
        (some ⟨pre ++ BlockEntry.parseFail err :: rest, flags⟩) =
      (.sent ⟨0, some err⟩, true) := by
  have hred : TxSubscription.Handler txId
      (some ⟨pre ++ BlockEntry.parseFail err :: rest, flags⟩) =
      TxSubscription.handlerLoop txId flags (pre ++ BlockEntry.parseFail err :: rest) 0 := rfl
  rw [hred, handlerLoop_append_skip txId flags pre _ 0 hpre]
  rfl

/-- Witness for C10: the parse failure at index 1 preempts the awaited
transaction at index 2, whose filter flag is VALID. -/
theorem C10_parse_error_preempts_witness :
    TxSubscription.Handler "t"
        (some ⟨[BlockEntry.tx "other", BlockEntry.parseFail "bad envelope",
                BlockEntry.tx "t"], [0, 0, 0]⟩) =
      (.sent ⟨0, some "bad envelope"⟩, true) :=
  C10_parse_error_preempts "t" "bad envelope" [0, 0, 0]
    [BlockEntry.tx "other"] [BlockEntry.tx "t"]
    (by
      intro x hx
      simp only [List.mem_singleton] at hx
      subst hx
      exact ⟨"other", rfl, by decide⟩)

end HlfSdk

namespace HlfSdk

/-- C6 counterexample: with two endpoints where the first is plaintext
and the second TLS-enabled, the dial options used when RPCs go to
endpoint 1 are the plaintext options derived from configuration 0, not
options derived from configuration 1's TLS settings. -/
theorem C6_per_endpoint_tls_counterexample :
    ConnectionFromConfigs [plainConfig, tlsConfig] =
      .ok ⟨.insecure, ["peer0.org1:7051", "peer0.org2:7051"]⟩ ∧
    DialPlan.securityFor ⟨.insecure, ["peer0.org1:7051", "peer0.org2:7051"]⟩ 1 ≠
      securityFromConfig tlsConfig :=
  ⟨rfl, by decide⟩

/-- C6 amended: for every non-empty configuration list, the resulting
round-robin connection derives its dial options from the TLS settings
of the FIRST configuration and applies them to every endpoint; each
configuration contributes only its address. -/
theorem C6_options_from_first_config (c0 : ConnectionConfig)
    (rest : List ConnectionConfig) (plan : DialPlan)
    (h : ConnectionFromConfigs (c0 :: rest) = .ok plan) :
    (∀ i, plan.securityFor i = securityFromConfig c0) ∧
    plan.addresses = (c0 :: rest).map (·.Host) := by
  have h2 : (Except.ok { security := securityFromConfig c0
                         addresses := (c0 :: rest).map (·.Host) } :
      Except String DialPlan) = .ok plan := h
  injection h2 with h3
  subst h3
  exact ⟨fun i => rfl, rfl⟩

/-- Witness for the amended C6 at two concrete endpoints. -/
theorem C6_options_from_first_config_witness :
    DialPlan.securityFor ⟨.insecure, ["peer0.org1:7051", "peer0.org2:7051"]⟩ 1 =
      securityFromConfig plainConfig :=
  (C6_options_from_first_config plainConfig [tlsConfig]
    ⟨.insecure, ["peer0.org1:7051", "peer0.org2:7051"]⟩ rfl).1 1

set_option maxRecDepth 40000 in
/-- C8 counterexample: at a 51-byte argument rendering, the rendering
in the aggregate is not the first 50 bytes followed directly by the
dropped-byte suffix: the code inserts an ellipsis between them. -/
theorem C8_truncation_counterexample :
    (makeTruncatableString longArg 50).str ≠ longArg.take 50 ++ "(1)" ∧
    (makeTruncatableString longArg 50).str = longArg.take 50 ++ "...(1)" := by
  decide

/-- C8 amended: with at least one accumulated argument-marshalling
error, `Do` fails before any network work (no endorsement consulted,
no broadcast) with an aggregate error listing every offending
argument; a rendering of at most 50 bytes appears unchanged, and a
longer one appears as its first 50 bytes, an ellipsis `...`, then the
suffix `(n)` where `n` is the number of bytes dropped. -/
theorem C8_bad_args_aggregate (argErrs : List (String × String)) (env : DoEnv)
    (hne : argErrs ≠ []) :
    invokeBuilder.Do argErrs env =
      ⟨none, "", some (.badArgs (String.join (argErrs.map fun p =>
        (if p.1.length ≤ 50 then p.1
         else p.1.take 50 ++ "..." ++ "(" ++ toString (p.1.length - 50) ++ ")")
        ++ ": " ++ p.2 ++ "\n"))), false⟩ ∧
    (∀ s : String, s.length ≤ 50 → (makeTruncatableString s 50).str = s) ∧
    (∀ s : String, 50 < s.length →
      (makeTruncatableString s 50).str =
        s.take 50 ++ "..." ++ "(" ++ toString (s.length - 50) ++ ")") := by
  refine ⟨?_, ?_, ?_⟩
  · match argErrs, hne with
    | [], h => exact absurd rfl h
    | (k, e) :: rest, _ =>
      have hred : invokeBuilder.Do ((k, e) :: rest) env =
          ⟨none, "", some (.badArgs (String.join (((k, e) :: rest).map fun p =>
            (makeTruncatableString p.1 50).str ++ ": " ++ p.2 ++ "\n"))), false⟩ := rfl
      rw [hred]
      simp only [makeTruncatableString_str]
  · intro s hs
    rw [makeTruncatableString_str, if_pos hs]
  · intro s hs
    rw [makeTruncatableString_str, if_neg (by omega)]

/-- Witness for the amended C8 at one offending argument. -/
theorem C8_bad_args_aggregate_witness :
    invokeBuilder.Do [("x", "bad json")] sampleEnv =
      ⟨none, "", some (.badArgs "x: bad json\n"), false⟩ := by
  have h := (C8_bad_args_aggregate [("x", "bad json")] sampleEnv (by decide)).1
  exact h

end HlfSdk

namespace HlfSdk

/-- Evaluation of `Do` once the pipeline has reached the endorsement
guard: argument errors drained, orderer present, waiter installed,
options applied, proposal signed, fan-out returned. -/
theorem Do_after_endorse (argErrs : List (String × String)) (env : DoEnv)
    (hA : errArgMap.Err argErrs = none)
    (hO : env.ordererDefined = true) (hI : env.txWaiterInitOk = true)
    (hAp : env.applyOptions = .ok ()) (txID : String) (hP : env.proposal = .ok txID)
    (rs : List ProposalResponse) (hE : env.endorse = .ok rs) :
    invokeBuilder.Do argErrs env =
      (if rs.length = 0 || rs.length ≠ env.endorsingMspIDs.length then
        (⟨none, "", some (.notEnoughEndorsements rs.length env.endorsingMspIDs.length),
          false⟩ : DoResult)
      else
        match env.envelope with
        | .error e => ⟨none, txID, some (.createEnvelope e), false⟩
        | .ok _ =>
          match env.broadcast with
          | .error e => ⟨none, txID, some (.broadcast e), true⟩
          | .ok _ =>
            match env.wait with
            | some e => ⟨none, txID, some (.wait e), true⟩
            | none => ⟨rs.head?.map ProposalResponse.Response, txID, none, true⟩) := by
  unfold invokeBuilder.Do
  rw [hA, hO, hI, hAp, hP, hE]
  rfl

/-- Evaluation of `Do` through the whole pipeline up to the tx-waiter. -/
theorem Do_final (argErrs : List (String × String)) (env : DoEnv)
    (hA : errArgMap.Err argErrs = none)
    (hO : env.ordererDefined = true) (hI : env.txWaiterInitOk = true)
    (hAp : env.applyOptions = .ok ()) (txID : String) (hP : env.proposal = .ok txID)
    (rs : List ProposalResponse) (hE : env.endorse = .ok rs)
    (h0 : rs.length ≠ 0) (hlen : rs.length = env.endorsingMspIDs.length)
    (hEnvl : env.envelope = .ok ()) (hBc : env.broadcast = .ok ()) :
    invokeBuilder.Do argErrs env =
      match env.wait with
      | some e => ⟨none, txID, some (.wait e), true⟩
      | none => ⟨rs.head?.map ProposalResponse.Response, txID, none, true⟩ := by
  rw [Do_after_endorse argErrs env hA hO hI hAp txID hP rs hE,
      if_neg (by simp only [Bool.or_eq_true, decide_eq_true_eq, not_or]; exact ⟨h0, not_not_intro hlen⟩),
      hEnvl, hBc]

/-- Success inversion for `Do`: a returned response forces the whole
pipeline to have run and the endorsement guard to have passed. -/
theorem Do_success_inv (argErrs : List (String × String)) (env : DoEnv)
    (hr : (invokeBuilder.Do argErrs env).response.isSome = true) :
    ∃ rs, env.endorse = .ok rs ∧ rs.length = env.endorsingMspIDs.length ∧ 0 < rs.length ∧
      (invokeBuilder.Do argErrs env).response = rs.head?.map ProposalResponse.Response ∧
      (invokeBuilder.Do argErrs env).broadcastCalled = true := by
  cases hA : errArgMap.Err argErrs with
  | some e =>
    have hDo : invokeBuilder.Do argErrs env = ⟨none, "", some (.badArgs e), false⟩ := by
      unfold invokeBuilder.Do
      rw [hA]
    rw [hDo] at hr
    simp at hr
  | none =>
    cases hO : env.ordererDefined with
    | false =>
      have hDo : invokeBuilder.Do argErrs env = ⟨none, "", some .ordererNotDefined, false⟩ := by
        unfold invokeBuilder.Do
        rw [hA, hO]
        rfl
      rw [hDo] at hr
      simp at hr
    | true =>
      cases hI : env.txWaiterInitOk with
      | false =>
        have hDo : invokeBuilder.Do argErrs env = ⟨none, "", none, false⟩ := by
          unfold invokeBuilder.Do
          rw [hA, hO, hI]
          rfl
        rw [hDo] at hr
        simp at hr
      | true =>
        cases hAp : env.applyOptions with
        | error e =>
          have hDo : invokeBuilder.Do argErrs env = ⟨none, "", some (.applyOptions e), false⟩ := by
            unfold invokeBuilder.Do
            rw [hA, hO, hI, hAp]
            rfl
          rw [hDo] at hr
          simp at hr
        | ok u =>
          cases u
          cases hP : env.proposal with
          | error e =>
            have hDo : invokeBuilder.Do argErrs env = ⟨none, "", some (.createProposal e), false⟩ := by
              unfold invokeBuilder.Do
              rw [hA, hO, hI, hAp, hP]
              rfl
            rw [hDo] at hr
            simp at hr
          | ok txID =>
            cases hE : env.endorse with
            | error e =>
              have hDo : invokeBuilder.Do argErrs env = ⟨none, txID, some (.sendProposal e), false⟩ := by
                unfold invokeBuilder.Do
                rw [hA, hO, hI, hAp, hP, hE]
                rfl
              rw [hDo] at hr
              simp at hr
            | ok rs =>
              by_cases hg : rs.length = 0 ∨ rs.length ≠ env.endorsingMspIDs.length
              · have hDo : invokeBuilder.Do argErrs env =
                    ⟨none, "", some (.notEnoughEndorsements rs.length env.endorsingMspIDs.length),
                      false⟩ := by
                  rw [Do_after_endorse argErrs env hA hO hI hAp txID hP rs hE,
                      if_pos (by simpa using hg)]
                rw [hDo] at hr
                simp at hr
              · push_neg at hg
                obtain ⟨h0, hlen⟩ := hg
                cases hEnvl : env.envelope with
                | error e =>
                  have hDo : invokeBuilder.Do argErrs env =
                      ⟨none, txID, some (.createEnvelope e), false⟩ := by
                    rw [Do_after_endorse argErrs env hA hO hI hAp txID hP rs hE,
                        if_neg (by simp only [Bool.or_eq_true, decide_eq_true_eq, not_or]; exact ⟨h0, not_not_intro hlen⟩),
                        hEnvl]
                  rw [hDo] at hr
                  simp at hr
                | ok u2 =>
                  cases u2
                  cases hBc : env.broadcast with
                  | error e =>
                    have hDo : invokeBuilder.Do argErrs env =
                        ⟨none, txID, some (.broadcast e), true⟩ := by
                      rw [Do_after_endorse argErrs env hA hO hI hAp txID hP rs hE,
                          if_neg (by simp only [Bool.or_eq_true, decide_eq_true_eq, not_or]; exact ⟨h0, not_not_intro hlen⟩),
                          hEnvl, hBc]
                    rw [hDo] at hr
                    simp at hr
                  | ok u3 =>
                    cases u3
                    cases hW : env.wait with
                    | some e =>
                      have hDo : invokeBuilder.Do argErrs env =
                          ⟨none, txID, some (.wait e), true⟩ := by
                        rw [Do_final argErrs env hA hO hI hAp txID hP rs hE h0 hlen hEnvl hBc, hW]
                      rw [hDo] at hr
                      simp at hr
                    | none =>
                      have hDo : invokeBuilder.Do argErrs env =
                          ⟨rs.head?.map ProposalResponse.Response, txID, none, true⟩ := by
                        rw [Do_final argErrs env hA hO hI hAp txID hP rs hE h0 hlen hEnvl hBc, hW]
                      exact ⟨rs, rfl, hlen, by omega, by rw [hDo], by rw [hDo]⟩

/-- C1: `Do` returns success only when the fan-out produced exactly as
many responses as endorsing MSPs were requested (and at least one);
when the fan-out produced fewer responses than requested, `Do` fails
with `NotEnoughEndorsements` and the orderer broadcast is never
invoked. -/
theorem C1_endorsement_quorum (argErrs : List (String × String)) (env : DoEnv) :
    ((invokeBuilder.Do argErrs env).response.isSome = true ∧
        (invokeBuilder.Do argErrs env).err = none →
      ∃ rs, env.endorse = .ok rs ∧ rs.length = env.endorsingMspIDs.length ∧
        0 < rs.length) ∧
    (errArgMap.Err argErrs = none → env.ordererDefined = true →
      env.txWaiterInitOk = true → env.applyOptions = .ok () →
      ∀ txID, env.proposal = .ok txID →
      ∀ rs, env.endorse = .ok rs → rs.length < env.endorsingMspIDs.length →
        (invokeBuilder.Do argErrs env).err =
          some (.notEnoughEndorsements rs.length env.endorsingMspIDs.length) ∧
        (invokeBuilder.Do argErrs env).broadcastCalled = false) := by
  constructor
  · rintro ⟨hr, _⟩
    obtain ⟨rs, hE, hlen, hpos, _, _⟩ := Do_success_inv argErrs env hr
    exact ⟨rs, hE, hlen, hpos⟩
  · intro hA hO hI hAp txID hP rs hE hlt
    have hDo : invokeBuilder.Do argErrs env =
        ⟨none, "", some (.notEnoughEndorsements rs.length env.endorsingMspIDs.length),
          false⟩ := by
      rw [Do_after_endorse argErrs env hA hO hI hAp txID hP rs hE,
          if_pos (by simp only [Bool.or_eq_true, decide_eq_true_eq]; omega)]
    rw [hDo]
    exact ⟨rfl, rfl⟩

/-- Witness for C1 at the S2 scenario: one response collected, two
MSPs requested. -/
theorem C1_endorsement_quorum_witness :
    (invokeBuilder.Do [] envOneShort).err = some (.notEnoughEndorsements 1 2) ∧
    (invokeBuilder.Do [] envOneShort).broadcastCalled = false :=
  (C1_endorsement_quorum [] envOneShort).2 rfl rfl rfl rfl "abc123" rfl
    [⟨"0x01"⟩] rfl (by decide)

end HlfSdk

namespace HlfSdk

/-- The ordered fan-out returns exactly one endorsement per requested
MSP when it succeeds. -/
theorem EndorseOnMSPs_length (f : String → Except String ProposalResponse)
    (ms : List String) (rs : List ProposalResponse)
    (h : EndorseOnMSPs f ms = .ok rs) : rs.length = ms.length := by
  induction ms generalizing rs with
  | nil =>
    unfold EndorseOnMSPs at h
    injection h with h2
    subst h2
    rfl
  | cons m ms ih =>
    unfold EndorseOnMSPs at h
    split at h
    · exact Except.noConfusion h
    · exact Except.noConfusion h
    · rename_i r rs2 hf hrec
      injection h with h2
      subst h2
      simp [ih rs2 hrec]

/-- A successful ordered fan-out over a non-empty MSP list starts with
the endorsement of the first requested MSP. -/
theorem EndorseOnMSPs_cons_ok (f : String → Except String ProposalResponse)
    (m : String) (ms : List String) (rs : List ProposalResponse)
    (h : EndorseOnMSPs f (m :: ms) = .ok rs) :
    ∃ r0 rs2, f m = .ok r0 ∧ EndorseOnMSPs f ms = .ok rs2 ∧ rs = r0 :: rs2 := by
  unfold EndorseOnMSPs at h
  split at h
  · exact Except.noConfusion h
  · exact Except.noConfusion h
  · rename_i r rs2 hf hrec
    injection h with h2
    exact ⟨r, rs2, hf, hrec, h2.symm⟩

/-- Resolution of the handler at the first matching transaction, after
a prefix of parsed non-matching transactions. -/
theorem handler_first_match (txId : String) (flags : List Int)
    (pre rest : List BlockEntry)
    (hpre : ∀ x ∈ pre, ∃ id, x = BlockEntry.tx id ∧ id ≠ txId) :
    TxSubscription.Handler txId (some ⟨pre ++ BlockEntry.tx txId :: rest, flags⟩) =
      (.sent ⟨flags.getD pre.length 0,
        if flags.getD pre.length 0 = 0 then none
        else some ("TxId validation code failed: " ++
          txValidationName (flags.getD pre.length 0))⟩, true) := by
  have hred : TxSubscription.Handler txId (some ⟨pre ++ BlockEntry.tx txId :: rest, flags⟩) =
      TxSubscription.handlerLoop txId flags (pre ++ BlockEntry.tx txId :: rest) 0 := rfl
  rw [hred, handlerLoop_append_skip txId flags pre _ 0 hpre]
  simp only [TxSubscription.handlerLoop, Nat.zero_add, eq_self_iff_true, if_true]
  by_cases hc : flags.getD pre.length 0 = 0
  · rw [if_pos hc, if_pos hc]
  · rw [if_neg hc, if_neg hc]

/-- C4 counterexample: the block contains the awaited transaction
(entry 1, parsed, with the VALID flag at its index), yet the handler
resolves with a non-nil error carrying the earlier entry's parse
failure instead of resolving with that transaction's validation flag
and a nil error. -/
theorem C4_tx_resolution_counterexample :
    TxSubscription.Handler "t"
        (some ⟨[BlockEntry.parseFail "bad envelope", BlockEntry.tx "t"], [0, 0]⟩) =
      (.sent ⟨0, some "bad envelope"⟩, true) ∧
    (some "bad envelope" : Option String) ≠ none := by
  exact ⟨rfl, by decide⟩

/-- C4 amended: for every delivered block containing a transaction
with channel-header `TxId` equal to the subscription's txID, where
every entry before the first such transaction parses successfully and
does not match, `Handler` resolves the subscription with the
validation flag at that transaction's index in the block's
TRANSACTIONS_FILTER metadata: nil error when the flag is VALID,
otherwise an error whose text names the validation code. -/
theorem C4_tx_resolution (txId : String) (flags : List Int)
    (pre rest : List BlockEntry)
    (hpre : ∀ x ∈ pre, ∃ id, x = BlockEntry.tx id ∧ id ≠ txId)
    (hlt : pre.length < flags.length) :
    TxSubscription.Handler txId (some ⟨pre ++ BlockEntry.tx txId :: rest, flags⟩) =
      (.sent ⟨flags.get ⟨pre.length, hlt⟩,
        if flags.get ⟨pre.length, hlt⟩ = 0 then none
        else some ("TxId validation code failed: " ++
          txValidationName (flags.get ⟨pre.length, hlt⟩))⟩, true) := by
  have hgd : flags.getD pre.length 0 = flags.get ⟨pre.length, hlt⟩ := by
    rw [List.getD_eq_getElem flags 0 hlt]
    simp
  rw [handler_first_match txId flags pre rest hpre, hgd]

/-- Witness for the amended C4: a singleton block whose transaction is
flagged `MVCC_READ_CONFLICT` (code 11). -/
theorem C4_tx_resolution_witness :
    TxSubscription.Handler "t" (some ⟨[BlockEntry.tx "t"], [11]⟩) =
      (.sent ⟨11, some "TxId validation code failed: MVCC_READ_CONFLICT"⟩, true) := by
  have h := C4_tx_resolution "t" [11] [] []
    (fun x hx => absurd hx (List.not_mem_nil x)) (by decide)
  simpa [txValidationName] using h

end HlfSdk

namespace HlfSdk

/-- C2: for a successful `Do` — all endorsements collected by the
ordered fan-out, broadcast accepted, and the tx-waiter resolving from
the delivered block containing the transaction — the returned triple
is the `Response` of the first peer response in MSP-request order, the
transaction's txID, and a nil error; and the error is non-nil exactly
when the awaited validation code is not VALID. -/
theorem C2_success_returns_first_response (env : DoEnv)
    (endorseFn : String → Except String ProposalResponse)
    (m0 : String) (msRest : List String) (txID : String)
    (rs : List ProposalResponse) (flag : Int) (r : TxResult)
    (hO : env.ordererDefined = true) (hI : env.txWaiterInitOk = true)
    (hAp : env.applyOptions = .ok ())
    (hM : env.endorsingMspIDs = m0 :: msRest)
    (hP : env.proposal = .ok txID)
    (hEfn : env.endorse = EndorseOnMSPs endorseFn (m0 :: msRest))
    (hEok : EndorseOnMSPs endorseFn (m0 :: msRest) = .ok rs)
    (hEnvl : env.envelope = .ok ()) (hBc : env.broadcast = .ok ())
    (hH : TxSubscription.Handler txID (some ⟨[.tx txID], [flag]⟩) = (.sent r, true))
    (hW : env.wait = r.err) :
    ((invokeBuilder.Do [] env).err = none ↔ flag = 0) ∧
    (flag = 0 →
      ∃ r0, endorseFn m0 = .ok r0 ∧
        invokeBuilder.Do [] env = ⟨some r0.Response, txID, none, true⟩) ∧
    (invokeBuilder.Do [] env).txID = txID ∧
    (flag ≠ 0 → (invokeBuilder.Do [] env).err =
      some (.wait ("TxId validation code failed: " ++ txValidationName flag))) := by
  have hE : env.endorse = .ok rs := by rw [hEfn, hEok]
  have hlen : rs.length = env.endorsingMspIDs.length := by
    rw [hM]
    exact EndorseOnMSPs_length endorseFn (m0 :: msRest) rs hEok
  obtain ⟨r0, rs2, hf0, _, hrs⟩ := EndorseOnMSPs_cons_ok endorseFn m0 msRest rs hEok
  have h0 : rs.length ≠ 0 := by
    rw [hrs]
    simp
  have hh : TxSubscription.Handler txID (some ⟨[.tx txID], [flag]⟩) =
      (.sent ⟨flag, if flag = 0 then none
        else some ("TxId validation code failed: " ++ txValidationName flag)⟩, true) := by
    have h2 := handler_first_match txID [flag] [] []
      (fun x hx => absurd hx (List.not_mem_nil x))
    simpa using h2
  rw [hh] at hH
  injection hH with h1 _
  injection h1 with h2
  have hwait : env.wait = (if flag = 0 then none
      else some ("TxId validation code failed: " ++ txValidationName flag)) := by
    rw [hW, ← h2]
  have hDo := Do_final [] env rfl hO hI hAp txID hP rs hE h0 hlen hEnvl hBc
  by_cases hflag : flag = 0
  · have hw2 : env.wait = none := by rw [hwait, if_pos hflag]
    rw [hw2] at hDo
    have hDo2 : invokeBuilder.Do [] env =
        ⟨rs.head?.map ProposalResponse.Response, txID, none, true⟩ := hDo
    refine ⟨?_, ?_, ?_, ?_⟩
    · rw [hDo2]
      simp [hflag]
    · intro _
      refine ⟨r0, hf0, ?_⟩
      rw [hDo2, hrs]
      rfl
    · rw [hDo2]
    · intro hne
      exact absurd hflag hne
  · have hw2 : env.wait = some ("TxId validation code failed: " ++ txValidationName flag) := by
      rw [hwait, if_neg hflag]
    rw [hw2] at hDo
    have hDo2 : invokeBuilder.Do [] env =
        ⟨none, txID, some (.wait ("TxId validation code failed: " ++ txValidationName flag)),
          true⟩ := hDo
    refine ⟨?_, ?_, ?_, ?_⟩
    · rw [hDo2]
      simp [hflag]
    · intro h
      exact absurd h hflag
    · rw [hDo2]
    · intro _
      rw [hDo2]

/-- Witness for C2 at the S1 happy path: both MSPs answer with payload
`0x01`, the block flags the transaction VALID, and `Do` returns the
first MSP's response with a nil error. -/
theorem C2_success_returns_first_response_witness :
    invokeBuilder.Do [] envOrdered = ⟨some "0x01", "abc123", none, true⟩ := by
  obtain ⟨r0, hf0, hDo⟩ := (C2_success_returns_first_response envOrdered sampleEndorse
    "Org1MSP" ["Org2MSP"] "abc123" [⟨"0x01"⟩, ⟨"0x01"⟩] 0 ⟨0, none⟩
    rfl rfl rfl rfl rfl rfl rfl rfl rfl rfl rfl).2.1 rfl
  have h3 : (Except.ok (⟨"0x01"⟩ : ProposalResponse) : Except String ProposalResponse) =
      .ok r0 := hf0
  injection h3 with h4
  rw [hDo, ← h4]

end HlfSdk
